import Mathlib

/-!
Verification development for the chat-log batch downloader
(`download_logsivr.py`) and the log-to-table parser
(`csv_conversion_script.py`).

Shallow-embedding conventions used throughout:

* A calendar date handled by Python's `datetime` is represented by its
  proleptic-Gregorian ordinal day number (the value of
  `datetime.toordinal`): under this representation `datetime` comparison
  is `Nat` comparison and `timedelta(days=1)` is `+ 1`.  `PyDate` keeps
  the parsed `(year, month, day)` fields; `toOrdinal` converts.
* `datetime.strptime` for the three fixed formats used by the scripts
  (`%d/%m/%Y`, `%Y-%m-%d`, `%Y-%m-%d %H:%M:%S`) is modelled by strict
  parsers that follow CPython's `_strptime` field regexes (`%Y` exactly
  four digits; `%d`, `%m`, `%H`, `%M`, `%S` one or two digits with the
  range checks of the corresponding regex alternations; literal
  separators; whitespace in the format matching one-or-more whitespace;
  the whole string must be consumed) followed by the `datetime`
  constructor's validity checks (year at least 1, day within the month,
  seconds at most 59).  A failed parse is `none` (a raised `ValueError`
  in Python).
* Fallible Python code is modelled with `Option`/`Except`; the outcome
  of a single-day download is the string the Python function returns,
  paired with the trace of side-effect events it performs.
-/

/-! ## Character classes and string helpers -/

/-- ASCII whitespace, as matched by the regex class `\s` and stripped by
Python's `str.strip()`. -/
def isSpaceChar (c : Char) : Bool :=
  c = ' ' || c = '\t' || c = '\n' || c = '\r' || c = '\x0b' || c = '\x0c'

/-- Word characters matched by the regex class `\w` (ASCII fragment). -/
def isWordChar (c : Char) : Bool := c.isAlphanum || c = '_'

/-- Python's `str.strip()`: remove whitespace from both ends. -/
def pyStrip (s : String) : String :=
  String.mk (((s.toList.dropWhile isSpaceChar).reverse.dropWhile isSpaceChar).reverse)

def pyInAux (needle : List Char) : List Char → Bool
  | [] => needle.isEmpty
  | c :: t => needle.isPrefixOf (c :: t) || pyInAux needle t

/-- Python's substring test `needle in hay` (case-sensitive). -/
def pyIn (needle hay : String) : Bool := pyInAux needle.toList hay.toList

/-! ## Calendar arithmetic (model of `datetime` date handling) -/

def isLeapYear (y : Nat) : Bool := (y % 4 == 0 && y % 100 != 0) || y % 400 == 0

def daysInMonth (y m : Nat) : Nat :=
  if m = 2 then (if isLeapYear y then 29 else 28)
  else if m = 4 ∨ m = 6 ∨ m = 9 ∨ m = 11 then 30
  else 31

def daysInYear (y : Nat) : Nat := if isLeapYear y then 366 else 365

def daysBeforeMonth (y m : Nat) : Nat :=
  let base :=
    match m with
    | 1 => 0 | 2 => 31 | 3 => 59 | 4 => 90 | 5 => 120 | 6 => 151
    | 7 => 181 | 8 => 212 | 9 => 243 | 10 => 273 | 11 => 304 | _ => 334
  base + (if 3 ≤ m then (if isLeapYear y then 1 else 0) else 0)

/-- A parsed calendar date (the date part of a Python `datetime`). -/
structure PyDate where
  year : Nat
  month : Nat
  day : Nat
  deriving DecidableEq, Repr

/-- `datetime.toordinal`: day number in the proleptic Gregorian calendar,
with day 1 = 0001-01-01. -/
def toOrdinal (d : PyDate) : Nat :=
  365 * (d.year - 1) + ((d.year - 1) / 4 - (d.year - 1) / 100 + (d.year - 1) / 400)
    + daysBeforeMonth d.year d.month + d.day

/-- Find the year containing ordinal day `n`, starting the scan at year `y`
with `n` counted from the start of `y`.  `fuel` bounds the number of
years scanned; callers pass a value at least as large as the answer. -/
def yearSearch : Nat → Nat → Nat → Nat × Nat
  | 0, y, n => (y, n)
  | fuel + 1, y, n =>
    if daysInYear y < n then yearSearch fuel (y + 1) (n - daysInYear y) else (y, n)

/-- Find the month containing day-of-year `doy` in year `y`, scanning from
month `m`. -/
def monthSearch : Nat → Nat → Nat → Nat → Nat × Nat
  | 0, _, m, doy => (m, doy)
  | fuel + 1, y, m, doy =>
    if daysInMonth y m < doy then monthSearch fuel y (m + 1) (doy - daysInMonth y m)
    else (m, doy)

/-- Inverse of `toOrdinal`: the `(year, month, day)` of an ordinal day. -/
def fromOrdinal (n : Nat) : Nat × Nat × Nat :=
  let yd := yearSearch n 1 n
  let md := monthSearch 11 yd.1 1 yd.2
  (yd.1, md.1, md.2)

def padNum (width n : Nat) : String :=
  let s := toString n
  if s.length < width then String.mk (List.replicate (width - s.length) '0') ++ s else s

/-- `strftime("%Y-%m-%d")` of the date with ordinal `n`. -/
def formatYMD (n : Nat) : String :=
  let ymd := fromOrdinal n
  padNum 4 ymd.1 ++ "-" ++ padNum 2 ymd.2.1 ++ "-" ++ padNum 2 ymd.2.2

/-! ## strptime models -/

def digitVal (c : Char) : Nat := c.toNat - '0'.toNat

/-- A one-or-two digit numeric field with an inclusive range check,
matched greedily.  This is the accepting behaviour of CPython's
`_strptime` regexes for `%d` (1-31), `%m` (1-12), `%H` (0-23),
`%M` (0-59) and `%S` (0-61): the alternation prefers two digits, and
backtracking to one digit can never help because the abandoned second
digit can not match a literal separator. -/
def parse2Digits (lo hi : Nat) (l : List Char) : Option (Nat × List Char) :=
  match l with
  | [] => none
  | c1 :: t1 =>
    if c1.isDigit then
      match t1 with
      | c2 :: t2 =>
        if c2.isDigit then
          let v := digitVal c1 * 10 + digitVal c2
          if lo ≤ v ∧ v ≤ hi then some (v, t2) else none
        else if lo ≤ digitVal c1 ∧ digitVal c1 ≤ hi then some (digitVal c1, t1) else none
      | [] => if lo ≤ digitVal c1 ∧ digitVal c1 ≤ hi then some (digitVal c1, []) else none
    else none

/-- The `%Y` field: exactly four digits. -/
def parse4Digits (l : List Char) : Option (Nat × List Char) :=
  match l with
  | a :: b :: c :: d :: t =>
    if a.isDigit && b.isDigit && c.isDigit && d.isDigit then
      some (digitVal a * 1000 + digitVal b * 100 + digitVal c * 10 + digitVal d, t)
    else none
  | _ => none

/-- A literal separator character in a strptime format. -/
def expectChar (c : Char) : List Char → Option (List Char)
  | [] => none
  | x :: t => if x = c then some t else none

/-- Whitespace in a strptime format string matches one-or-more whitespace
characters. -/
def skipWs1 : List Char → Option (List Char)
  | [] => none
  | x :: t => if isSpaceChar x then some (t.dropWhile isSpaceChar) else none

/-- `datetime.strptime(s, "%Y-%m-%d")`, as used on each generated date
string by `download_single_day`. -/
def strptime_ymd (s : String) : Option PyDate := do
  let (y, l) ← parse4Digits s.toList
  let l ← expectChar '-' l
  let (m, l) ← parse2Digits 1 12 l
  let l ← expectChar '-' l
  let (d, l) ← parse2Digits 1 31 l
  if l = [] ∧ 1 ≤ y ∧ d ≤ daysInMonth y m then some ⟨y, m, d⟩ else none

/-- `datetime.strptime(s, "%d/%m/%Y")`, as used on the user-supplied
start/end dates by `generate_date_list`. -/
def strptime_dmy (s : String) : Option PyDate := do
  let (d, l) ← parse2Digits 1 31 s.toList
  let l ← expectChar '/' l
  let (m, l) ← parse2Digits 1 12 l
  let l ← expectChar '/' l
  let (y, l) ← parse4Digits l
  if l = [] ∧ 1 ≤ y ∧ d ≤ daysInMonth y m then some ⟨y, m, d⟩ else none

/-- A parsed timestamp (a full Python `datetime`). -/
structure DateTime where
  year : Nat
  month : Nat
  day : Nat
  hour : Nat
  minute : Nat
  second : Nat
  deriving DecidableEq, Repr

/-- `datetime.strptime(s, "%Y-%m-%d %H:%M:%S")`, as used on the bracketed
timestamp by `parse_chat_line`.  The `%S` regex admits 0-61 but the
`datetime` constructor then rejects seconds above 59. -/
def strptime_ts (s : String) : Option DateTime := do
  let (y, l) ← parse4Digits s.toList
  let l ← expectChar '-' l
  let (mo, l) ← parse2Digits 1 12 l
  let l ← expectChar '-' l
  let (d, l) ← parse2Digits 1 31 l
  let l ← skipWs1 l
  let (h, l) ← parse2Digits 0 23 l
  let l ← expectChar ':' l
  let (mi, l) ← parse2Digits 0 59 l
  let l ← expectChar ':' l
  let (se, l) ← parse2Digits 0 61 l
  if l = [] ∧ 1 ≤ y ∧ d ≤ daysInMonth y mo ∧ se ≤ 59 then
    some ⟨y, mo, d, h, mi, se⟩
  else none

/-! ## `generate_date_list` -/

/-- The `while current_date <= end_date` loop of `generate_date_list`,
over ordinal day numbers.  `fuel` bounds the number of iterations; the
caller passes the exact iteration count of the loop, so the fuel never
runs out (`dateLoopFuel_eq` below). -/
def dateLoopFuel : Nat → Nat → Nat → List Nat
  | 0, _, _ => []
  | fuel + 1, cur, stop =>
    if cur ≤ stop then cur :: dateLoopFuel fuel (cur + 1) stop else []

/-- The ordinal days visited by `generate_date_list`'s loop for parsed
start/end dates with ordinals `start` and `stop`. -/
def dateRange (start stop : Nat) : List Nat :=
  dateLoopFuel (stop + 1 - start) start stop

/-- `generate_date_list(start_date_str, end_date_str)`: parse both inputs
with `%d/%m/%Y` (a parse failure is an uncaught `ValueError`), then
collect `current_date.strftime("%Y-%m-%d")` for every day of the loop. -/
def generate_date_list (s e : String) : Except String (List String) :=
  match strptime_dmy s with
  | none => .error ("ValueError: time data " ++ s ++ " does not match format %d/%m/%Y")
  | some sd =>
    match strptime_dmy e with
    | none => .error ("ValueError: time data " ++ e ++ " does not match format %d/%m/%Y")
    | some ed => .ok ((dateRange (toOrdinal sd) (toOrdinal ed)).map formatYMD)

/-! ## `validate_channel` -/

/-- `validate_channel(channel)` applied to the outcome of its single
`requests.get`: `none` models a raised `requests.exceptions.RequestException`,
`some (status, body)` a completed response.  The function returns
`"No logs found" not in response.text and response.status_code == 200`,
and `False` when the request raised. -/
def validate_channel (resp : Option (Nat × String)) : Bool :=
  match resp with
  | none => false
  | some (status, body) => !(pyIn "No logs found" body) && (status == 200)

/-! ## `download_single_day` and `download_logs_parallel` -/

/-- The behaviour of the `requests.get` for one day: a 2xx response with
a body, a non-2xx response (`raise_for_status` raises an `HTTPError`,
a `RequestException`, whose message is `msg`), or a network-level
`RequestException`. -/
inductive NetResp
  | ok (body : String)
  | httpError (msg : String)
  | netError (msg : String)
  deriving DecidableEq, Repr

/-- The behaviour of the `open`/`write` of the day's file: success, or a
raised `OSError` (not a `RequestException`) whose message is `msg`. -/
inductive WriteResp
  | ok
  | fsError (msg : String)
  deriving DecidableEq, Repr

/-- Side-effect events of one `download_single_day` call, in program
order.  `rateAcquire` is the bookkeeping of the `@sleep_and_retry` /
`@limits(calls=5, period=1)` decorators, which wrap the whole function
and therefore run before the body on every invocation.  `semAcquire` /
`semRelease` delimit the `with semaphore:` block; `httpGet` is the
network call; `fileWrite` the persisted file. -/
inductive Event
  | rateAcquire
  | semAcquire
  | httpGet (url fromP toP : String)
  | fileWrite (path : String)
  | semRelease
  deriving DecidableEq, Repr

/-- The per-day target path `logs/{channel}_logs_{date_str}.txt`
(written here without braces: `"logs/" ++ channel ++ "_logs_" ++ date ++ ".txt"`). -/
def day_filename (channel date_str : String) : String :=
  "logs/" ++ channel ++ "_logs_" ++ date_str ++ ".txt"

/-- `download_single_day(channel, date_str, semaphore)`.

`fs` is the set of paths that exist on disk (`os.path.exists`); `net`
and `wr` are the environment's responses to the network call and the
file write.  The result is the string the Python function returns —
`Except.error` models an exception escaping the function (only the
initial `strptime` can raise, nothing inside the `try` block escapes) —
paired with the trace of events performed. -/
def download_single_day (channel date_str : String) (fs : List String)
    (net : NetResp) (wr : WriteResp) : Except String String × List Event :=
  match strptime_ymd date_str with
  | none =>
    (.error ("ValueError: time data " ++ date_str ++ " does not match format %Y-%m-%d"),
      [.rateAcquire])
  | some d =>
    let ord := toOrdinal d
    let from_date := formatYMD ord ++ "T00:00:00Z"
    let to_date := formatYMD (ord + 1) ++ "T00:00:00Z"
    let filename := day_filename channel date_str
    if filename ∈ fs then
      (.ok ("Skipped " ++ date_str ++ " - file exists"), [.rateAcquire])
    else
      let url := "https://logs.ivr.fi/channel/" ++ channel
      match net with
      | .ok _body =>
        match wr with
        | .ok =>
          (.ok ("Successfully downloaded " ++ date_str),
            [.rateAcquire, .semAcquire, .httpGet url from_date to_date,
              .fileWrite filename, .semRelease])
        | .fsError m =>
          (.ok ("Unexpected error for " ++ date_str ++ ": " ++ m),
            [.rateAcquire, .semAcquire, .httpGet url from_date to_date, .semRelease])
      | .httpError m =>
        (.ok ("Error downloading " ++ date_str ++ ": " ++ m),
          [.rateAcquire, .semAcquire, .httpGet url from_date to_date, .semRelease])
      | .netError m =>
        (.ok ("Error downloading " ++ date_str ++ ": " ++ m),
          [.rateAcquire, .semAcquire, .httpGet url from_date to_date, .semRelease])

/-- The classification step of `download_logs_parallel`'s result loop:
a normally returned result is recorded as a failure exactly when it
contains the (case-sensitive) substring `"Error"`; an exception raised
out of the future is recorded as `str(e)`. -/
def record_failure (res : Except String String) : Option String :=
  match res with
  | .ok r => if pyIn "Error" r then some r else none
  | .error e => some e

/-- The `failed_downloads` mapping built by `download_logs_parallel`:
one entry per day whose result was classified as a failure, keyed by
the day's date string.  `net` and `wr` give the environment's behaviour
for each submitted day. -/
def download_logs_parallel_failed (channel : String) (dates : List String)
    (fs : List String) (net : String → NetResp) (wr : String → WriteResp) :
    List (String × String) :=
  dates.filterMap fun d =>
    (record_failure (download_single_day channel d fs (net d) (wr d)).1).map
      fun e => (d, e)

/-- The failure-report write at the end of `download_logs_parallel`:
only if `failed_downloads` is non-empty, write the file
`failed_downloads_{channel}.txt` with one line `date ++ ": " ++ error`
per failed day.  `none` models no file being written; `some` carries the
file name and its lines. -/
def failure_report (channel : String) (failed : List (String × String)) :
    Option (String × List String) :=
  if failed.isEmpty then none
  else
    some ("failed_downloads_" ++ channel ++ ".txt",
      failed.map fun p => p.1 ++ ": " ++ p.2)

/-! ## `parse_chat_line` -/

/-- Model of `re.match(r'\[(.*?)\](.+)', line)`, returning the two
groups.  The line must start with `[`; the lazy group 1 is the run of
characters (none of them `]` or a newline, since `.` does not match a
newline) before the first `]`; group 2 is the greedy non-newline run
after that `]` and must be non-empty.  Backtracking to a later `]`
can never rescue a failure: the lazy group can only grow across the
character that made group 2 fail, which is a newline or the end of the
string. -/
def tsMatch (line : String) : Option (String × String) :=
  match line.toList with
  | '[' :: t =>
    let pre := t.takeWhile fun c => !(c == ']') && !(c == '\n')
    match t.drop pre.length with
    | ']' :: r =>
      let g2 := r.takeWhile fun c => !(c == '\n')
      if g2.isEmpty then none else some (String.mk pre, String.mk g2)
    | _ => none
  | _ => none

/-- Model of `re.match(r'\s*#(\w+)\s+([^:]+):(.+)', rest)`, returning
groups `(channel, username-part, message)`.  After maximal leading
whitespace there must be a `#`, then a non-empty maximal run of word
characters (group 1), then at least one whitespace character, then the
non-empty group `[^:]+` reaching to the first `:` (the `\s+`/`[^:]+`
boundary backtracks so that `[^:]+` keeps at least one character), the
literal `:`, and a non-empty greedy non-newline group 3. -/
def restMatch (rest : String) : Option (String × String × String) :=
  match rest.toList.dropWhile isSpaceChar with
  | '#' :: t1 =>
    let w := t1.takeWhile isWordChar
    if w.isEmpty then none
    else
      let t3 := t1.drop w.length
      match t3 with
      | c :: _ =>
        if isSpaceChar c then
          let p := t3.takeWhile fun x => !(x == ':')
          match t3.drop p.length with
          | ':' :: msgRest =>
            if 2 ≤ p.length then
              let spLen := min (t3.takeWhile isSpaceChar).length (p.length - 1)
              let g3 := msgRest.takeWhile fun x => !(x == '\n')
              if g3.isEmpty then none
              else some (String.mk w, String.mk (p.drop spLen), String.mk g3)
            else none
          | _ => none
        else none
      | [] => none
  | _ => none

/-- One parsed row of the combined table. -/
structure ChatRow where
  timestamp : DateTime
  channel : String
  username : String
  message : String
  deriving DecidableEq, Repr

/-- The Python exception classes relevant to `parse_chat_line`'s
`except (ValueError, AttributeError)` clause.  `otherError` stands for
every other exception class, which the clause would not catch. -/
inductive PyErr
  | valueError (msg : String)
  | attributeError (msg : String)
  | otherError (msg : String)
  deriving DecidableEq, Repr

/-- `datetime.strptime` in the exception monad: a failed parse raises
`ValueError`. -/
def strptime_ts_exc (s : String) : Except PyErr DateTime :=
  match strptime_ts s with
  | some dt => .ok dt
  | none => .error (.valueError ("time data " ++ s ++ " does not match format"))

/-- The `except (ValueError, AttributeError)` handler of
`parse_chat_line`: those two classes are converted to `return None`
(after printing); any other exception propagates. -/
def catchVA (r : Except PyErr (Option ChatRow)) : Except PyErr (Option ChatRow) :=
  match r with
  | .error (.valueError _) => .ok none
  | .error (.attributeError _) => .ok none
  | other => other

/-- `parse_chat_line(line)`.  A `none` row models Python's `None`;
`Except.error` models an exception escaping the function. -/
def parse_chat_line (line : String) : Except PyErr (Option ChatRow) :=
  match tsMatch line with
  | none => .ok none
  | some (tstr, rest) =>
    catchVA
      (match strptime_ts_exc (pyStrip tstr) with
      | .error e => .error e
      | .ok ts =>
        match restMatch rest with
        | some (ch, user, msg) =>
          .ok (some { timestamp := ts, channel := ch,
                      username := pyStrip user, message := pyStrip msg })
        | none => .ok none)

/-! ## The concurrency gate (`Semaphore(max_concurrent_requests)`) -/

/-- Abstract state of the worker pool around the shared semaphore
created by `download_logs_parallel`: `permits` free semaphore permits,
`waiting` tasks blocked at `with semaphore:`, and `inBody` tasks
currently executing the block's body (the network call and file write).
Tasks are symmetric, so only the counts matter. -/
structure GateState where
  permits : Nat
  waiting : Nat
  inBody : Nat
  deriving DecidableEq, Repr

/-- Initial state: all `M` permits free, no tasks yet. -/
def gateInit (M : Nat) : GateState := ⟨M, 0, 0⟩

/-- Interleaved execution steps of the pool: a task arrives at the
`with semaphore:` statement; a blocked task acquires a free permit and
enters the body; a task leaves the body — either by normal return or by
a raised exception — and the `with` statement releases its permit on
both exit paths. -/
inductive GateStep : GateState → GateState → Prop
  | arrive (s : GateState) : GateStep s ⟨s.permits, s.waiting + 1, s.inBody⟩
  | acquire (p w b : Nat) : GateStep ⟨p + 1, w + 1, b⟩ ⟨p, w, b + 1⟩
  | exitNormal (p w b : Nat) : GateStep ⟨p, w, b + 1⟩ ⟨p + 1, w, b⟩
  | exitError (p w b : Nat) : GateStep ⟨p, w, b + 1⟩ ⟨p + 1, w, b⟩

/-- States reachable from the initial state under any scheduling. -/
inductive GateReach (M : Nat) : GateState → Prop
  | init : GateReach M (gateInit M)
  | step {s s' : GateState} : GateReach M s → GateStep s s' → GateReach M s'

/-! ## Helper lemmas -/

/-- The fuelled loop agrees with `List.range'` whenever the fuel covers
the iteration count. -/
theorem dateLoopFuel_eq :
    ∀ (fuel cur stop : Nat), stop + 1 - cur ≤ fuel →
      dateLoopFuel fuel cur stop = List.range' cur (stop + 1 - cur) := by
  intro fuel
  induction fuel with
  | zero =>
    intro cur stop h
    have h0 : stop + 1 - cur = 0 := by omega
    simp [dateLoopFuel, h0]
  | succ f ih =>
    intro cur stop h
    by_cases hc : cur ≤ stop
    · have h1 : stop + 1 - cur = (stop + 1 - (cur + 1)) + 1 := by omega
      rw [h1, List.range'_succ]
      simp only [dateLoopFuel, if_pos hc]
      rw [ih (cur + 1) stop (by omega)]
    · have h0 : stop + 1 - cur = 0 := by omega
      simp [dateLoopFuel, hc, h0]

/-- Closed form of the date-generation loop. -/
theorem dateRange_eq (start stop : Nat) :
    dateRange start stop = List.range' start (stop + 1 - start) :=
  dateLoopFuel_eq _ _ _ (Nat.le_refl _)

/-! ## Claims -/

/-- C1 (counterexample): for the valid date pair 02/01/2024 (start) and
01/01/2024 (end) — start strictly after end — `generate_date_list` does
not fail: it returns the empty list.  The claim that generation fails
with `InvalidRange` for every `start > end` is therefore false of the
code. -/
theorem c1_counterexample :
    strptime_dmy "02/01/2024" = some ⟨2024, 1, 2⟩ ∧
    strptime_dmy "01/01/2024" = some ⟨2024, 1, 1⟩ ∧
    toOrdinal (⟨2024, 1, 1⟩ : PyDate) < toOrdinal (⟨2024, 1, 2⟩ : PyDate) ∧
    generate_date_list "02/01/2024" "01/01/2024" = Except.ok [] := by
  refine ⟨by decide, by decide, by decide, ?_⟩
  rfl

/-- C1 (amended): for every pair of date strings parsing to valid
calendar dates with start strictly after end, `generate_date_list`
returns the empty list (the `while` loop body never runs); it raises
only when one of the date strings is malformed. -/
theorem c1_start_after_end (s e : String) (sd ed : PyDate)
    (hs : strptime_dmy s = some sd) (he : strptime_dmy e = some ed)
    (hlt : toOrdinal ed < toOrdinal sd) :
    generate_date_list s e = Except.ok [] := by
  have h0 : toOrdinal ed + 1 - toOrdinal sd = 0 := by omega
  simp [generate_date_list, hs, he, dateRange_eq, h0]

/-- C1 (witness for the amended theorem) at the dates 02/01/2024 and
01/01/2024. -/
theorem c1_start_after_end_witness :
    toOrdinal (⟨2024, 1, 1⟩ : PyDate) < toOrdinal (⟨2024, 1, 2⟩ : PyDate) ∧
    generate_date_list "02/01/2024" "01/01/2024" = Except.ok [] :=
  ⟨by decide,
    c1_start_after_end "02/01/2024" "01/01/2024" ⟨2024, 1, 2⟩ ⟨2024, 1, 1⟩
      (by decide) (by decide) (by decide)⟩

/-- C4: for every pair of date strings parsing to valid calendar dates
with start at or before end, the generation loop visits exactly
`end - start + 1` days, the i-th visited day is `start + i` (so the
sequence increases by exactly one day at each step), the first day is
`start`, the last day is `end`, and `generate_date_list` returns the
`%Y-%m-%d` rendering of exactly that sequence. -/
theorem c4_generate_date_list (s e : String) (sd ed : PyDate)
    (hs : strptime_dmy s = some sd) (he : strptime_dmy e = some ed)
    (hle : toOrdinal sd ≤ toOrdinal ed) :
    generate_date_list s e =
      Except.ok ((dateRange (toOrdinal sd) (toOrdinal ed)).map formatYMD) ∧
    (dateRange (toOrdinal sd) (toOrdinal ed)).length =
      (toOrdinal ed - toOrdinal sd) + 1 ∧
    (∀ i, i < (dateRange (toOrdinal sd) (toOrdinal ed)).length →
      (dateRange (toOrdinal sd) (toOrdinal ed))[i]? = some (toOrdinal sd + i)) ∧
    (dateRange (toOrdinal sd) (toOrdinal ed)).head? = some (toOrdinal sd) ∧
    (dateRange (toOrdinal sd) (toOrdinal ed)).getLast? = some (toOrdinal ed) := by
  set a := toOrdinal sd with ha
  set b := toOrdinal ed with hb
  have hn : b + 1 - a = (b - a) + 1 := by omega
  refine ⟨by simp [generate_date_list, hs, he], ?_, ?_, ?_, ?_⟩
  · rw [dateRange_eq, List.length_range']; omega
  · intro i hi
    rw [dateRange_eq, List.length_range'] at hi
    rw [dateRange_eq, List.getElem?_range' a 1 hi]
    simp
  · rw [dateRange_eq, List.head?_range', if_neg (by omega)]
  · rw [dateRange_eq, List.getLast?_range', if_neg (by omega)]
    congr 1
    omega

set_option maxRecDepth 100000 in
/-- C4 (witness) for the range 01/01/2024 to 03/01/2024: three entries,
rendered as 2024-01-01, 2024-01-02, 2024-01-03. -/
theorem c4_generate_date_list_witness :
    toOrdinal (⟨2024, 1, 1⟩ : PyDate) ≤ toOrdinal (⟨2024, 1, 3⟩ : PyDate) ∧
    generate_date_list "01/01/2024" "03/01/2024" =
      Except.ok ["2024-01-01", "2024-01-02", "2024-01-03"] := by
  refine ⟨by decide, ?_⟩
  have h := (c4_generate_date_list "01/01/2024" "03/01/2024" ⟨2024, 1, 1⟩ ⟨2024, 1, 3⟩
    (by decide) (by decide) (by decide)).1
  rw [h]
  exact congrArg Except.ok (by decide)

/-- C2 (counterexample): on a day whose file already exists the fetch
does return the Skipped outcome with no network call, but the
rate-limiter bookkeeping still runs: the `@sleep_and_retry` /
`@limits(calls=5, period=1)` decorators wrap the whole of
`download_single_day`, so their acquire happens before the
file-existence check.  The trace of the call below is exactly
`[rateAcquire]` — in particular it contains `rateAcquire` even though
the file exists, contradicting the claim that the rate limiter is
acquired only when the file is missing. -/
theorem c2_counterexample :
    (download_single_day "foo" "2024-01-01"
        [day_filename "foo" "2024-01-01"] (NetResp.ok "") WriteResp.ok).1 =
      Except.ok "Skipped 2024-01-01 - file exists" ∧
    (download_single_day "foo" "2024-01-01"
        [day_filename "foo" "2024-01-01"] (NetResp.ok "") WriteResp.ok).2 =
      [Event.rateAcquire] ∧
    Event.rateAcquire ∈
      (download_single_day "foo" "2024-01-01"
        [day_filename "foo" "2024-01-01"] (NetResp.ok "") WriteResp.ok).2 := by
  refine ⟨rfl, rfl, ?_⟩
  decide

/-- C2 (amended): for every channel and every day of a batch whose
target file `logs/{channel}_logs_{date}.txt` already exists, the per-day
fetch returns the Skipped outcome and its whole trace is the single
rate-limiter acquisition event: no network call is made and the
concurrency semaphore is never entered.  Applied to a second run over a
range whose first run left every file in place, every day is Skipped
and zero network calls occur; the rate limiter, however, is consumed
once per day even on such a run, because its decorators wrap the whole
function. -/
theorem c2_skip_no_network (channel : String) (dates : List String)
    (fs : List String) (net : String → NetResp) (wr : String → WriteResp)
    (hparse : ∀ d ∈ dates, (strptime_ymd d).isSome)
    (hex : ∀ d ∈ dates, day_filename channel d ∈ fs) :
    ∀ d ∈ dates,
      download_single_day channel d fs (net d) (wr d) =
        (Except.ok ("Skipped " ++ d ++ " - file exists"), [Event.rateAcquire]) := by
  intro d hd
  obtain ⟨pd, hp⟩ := Option.isSome_iff_exists.mp (hparse d hd)
  simp [download_single_day, hp, hex d hd]

/-- C2 (witness for the amended theorem): a one-day rerun with the day's
file already present. -/
theorem c2_skip_no_network_witness :
    day_filename "foo" "2024-01-01" ∈ [day_filename "foo" "2024-01-01"] ∧
    download_single_day "foo" "2024-01-01" [day_filename "foo" "2024-01-01"]
        (NetResp.ok "") WriteResp.ok =
      (Except.ok ("Skipped " ++ "2024-01-01" ++ " - file exists"),
        [Event.rateAcquire]) := by
  refine ⟨by decide, ?_⟩
  exact c2_skip_no_network "foo" ["2024-01-01"] [day_filename "foo" "2024-01-01"]
    (fun _ => NetResp.ok "") (fun _ => WriteResp.ok)
    (by intro d hd; simp at hd; subst hd; decide)
    (by intro d hd; simp at hd; subst hd; exact List.mem_singleton.mpr rfl)
    "2024-01-01" (by decide)

/-- C3 (code bug): a per-day filesystem write failure is caught inside
`download_single_day` and converted to the returned string
`"Unexpected error for {date}: {message}"`, but
`download_logs_parallel` records a day as failed only when the returned
string contains the case-sensitive substring `"Error"` — which that
message does not.  So a day whose file write fails is absent from
`failed_downloads` (third conjunct), while an HTTP error, whose message
starts with `"Error downloading"`, is recorded (fourth conjunct).  The
claim (and the spec) say a per-day filesystem write failure is recorded
as a failure for that day. -/
theorem c3_write_failure_not_recorded :
    (download_single_day "foo" "2024-01-01" [] (NetResp.ok "chat line")
        (WriteResp.fsError "disk full")).1 =
      Except.ok "Unexpected error for 2024-01-01: disk full" ∧
    record_failure (download_single_day "foo" "2024-01-01" [] (NetResp.ok "chat line")
        (WriteResp.fsError "disk full")).1 = none ∧
    download_logs_parallel_failed "foo" ["2024-01-01"] []
        (fun _ => NetResp.ok "chat line") (fun _ => WriteResp.fsError "disk full") =
      [] ∧
    record_failure (download_single_day "foo" "2024-01-01" []
        (NetResp.httpError "500 Server Error") WriteResp.ok).1 =
      some "Error downloading 2024-01-01: 500 Server Error" := by
  refine ⟨rfl, ?_, ?_, ?_⟩ <;> decide

/-- The semaphore invariant: free permits plus tasks inside the body
always account for all `M` permits. -/
theorem gate_invariant {M : Nat} : ∀ {s : GateState},
    GateReach M s → s.permits + s.inBody = M := by
  intro s h
  induction h with
  | init => simp [gateInit]
  | step _ hst ih =>
    cases hst with
    | arrive s => simpa using ih
    | acquire p w b => simp_all; omega
    | exitNormal p w b => simp_all; omega
    | exitError p w b => simp_all; omega

/-- C6: under any scheduling, in every reachable state at most `M`
tasks (`M` = `max_concurrent_requests`, 5 by default) are inside the
`with semaphore:` body at once; every step that leaves the body —
whether by normal return or by a raised error, the only exit paths the
code has — returns its permit; and after such an exit a blocked
requester, if any, can immediately acquire the freed permit. -/
theorem c6_gate_bound_and_release (M : Nat) (s : GateState)
    (h : GateReach M s) :
    s.inBody ≤ M ∧
    (∀ s', GateStep s s' → s'.inBody < s.inBody →
      s'.permits = s.permits + 1 ∧
      (0 < s'.waiting → ∃ s'', GateStep s' s'' ∧ s''.inBody = s'.inBody + 1)) := by
  refine ⟨?_, ?_⟩
  · have := gate_invariant h
    omega
  · intro s' hst hdec
    cases hst with
    | arrive s => exact absurd hdec (show ¬s.inBody < s.inBody by omega)
    | acquire p w b => exact absurd hdec (show ¬b + 1 < b by omega)
    | exitNormal p w b =>
      refine ⟨rfl, fun hw => ?_⟩
      have hw' : 0 < w := hw
      obtain ⟨w', rfl⟩ : ∃ w', w = w' + 1 := ⟨w - 1, by omega⟩
      exact ⟨⟨p, w', b + 1⟩, GateStep.acquire p w' b, rfl⟩
    | exitError p w b =>
      refine ⟨rfl, fun hw => ?_⟩
      have hw' : 0 < w := hw
      obtain ⟨w', rfl⟩ : ∃ w', w = w' + 1 := ⟨w - 1, by omega⟩
      exact ⟨⟨p, w', b + 1⟩, GateStep.acquire p w' b, rfl⟩

/-- C6 (witness): with the default 5 permits, the state after one task
has arrived and entered the body is reachable and respects the bound. -/
theorem c6_gate_witness :
    GateReach 5 ⟨4, 0, 1⟩ ∧ (⟨4, 0, 1⟩ : GateState).inBody ≤ 5 := by
  have hr : GateReach 5 ⟨4, 0, 1⟩ :=
    GateReach.step (GateReach.step GateReach.init (GateStep.arrive (gateInit 5)))
      (GateStep.acquire 4 0 0)
  exact ⟨hr, (c6_gate_bound_and_release 5 ⟨4, 0, 1⟩ hr).1⟩

/-- Mechanism of the failure report (supporting lemma): the file is
written exactly when the coordinator's `failed_downloads` map — the
days whose result string contained the case-sensitive substring
`"Error"` — is non-empty; its name is `failed_downloads_{channel}.txt`
and its lines are one line `date ++ ": " ++ error` per recorded day.
Note this characterises the days the code *records*, which, by the
classifier slip exhibited in the claim theorems below, is not every day
that actually failed. -/
theorem failure_report_iff_recorded (channel : String) (dates fs : List String)
    (net : String → NetResp) (wr : String → WriteResp) :
    ((failure_report channel
        (download_logs_parallel_failed channel dates fs net wr)).isSome ↔
      ∃ d ∈ dates,
        record_failure (download_single_day channel d fs (net d) (wr d)).1 ≠ none) ∧
    ∀ nm lines,
      failure_report channel
          (download_logs_parallel_failed channel dates fs net wr) =
        some (nm, lines) →
      nm = "failed_downloads_" ++ channel ++ ".txt" ∧
      lines = (download_logs_parallel_failed channel dates fs net wr).map
        (fun p => p.1 ++ ": " ++ p.2) := by
  constructor
  · have hne : ∀ L : List (String × String),
        (failure_report channel L).isSome ↔ L ≠ [] := by
      intro L; cases L <;> simp [failure_report]
    rw [hne, Ne, download_logs_parallel_failed, List.filterMap_eq_nil_iff]
    push_neg
    constructor
    · rintro ⟨d, hd, hne'⟩
      exact ⟨d, hd, fun hnone => hne' (by rw [hnone]; rfl)⟩
    · rintro ⟨d, hd, hne'⟩
      refine ⟨d, hd, fun hmap => hne' ?_⟩
      cases hrec : record_failure (download_single_day channel d fs (net d) (wr d)).1 with
      | none => rfl
      | some v => rw [hrec] at hmap; exact absurd hmap (by simp)
  · intro nm lines h
    unfold failure_report at h
    split at h
    · exact absurd h (by simp)
    · rw [Option.some.injEq, Prod.mk.injEq] at h
      exact ⟨h.1.symm, h.2.symm⟩

/-- C7 (code bug): the failure report is not written iff a day failed.
A one-day batch whose only failure is a filesystem write failure
produces the result string `"Unexpected error for 2024-01-01: disk
full"`, which the coordinator's case-sensitive `"Error"` substring test
does not classify as a failure; `failed_downloads` stays empty and no
report file is written at all — so the failed day has no report line
and the "written iff at least one day failed" biconditional fails in
the only-if-not direction.  By contrast, a batch whose day fails with
HTTP 500 does write `failed_downloads_foo.txt` with exactly one
correctly formatted line (last conjunct), showing the report mechanism
itself matches the claimed format for the days the code does record. -/
theorem c7_write_failure_no_report :
    (download_single_day "foo" "2024-01-01" [] (NetResp.ok "chat line")
        (WriteResp.fsError "disk full")).1 =
      Except.ok "Unexpected error for 2024-01-01: disk full" ∧
    download_logs_parallel_failed "foo" ["2024-01-01"] []
        (fun _ => NetResp.ok "chat line") (fun _ => WriteResp.fsError "disk full") =
      [] ∧
    failure_report "foo"
        (download_logs_parallel_failed "foo" ["2024-01-01"] []
          (fun _ => NetResp.ok "chat line")
          (fun _ => WriteResp.fsError "disk full")) =
      none ∧
    failure_report "foo"
        (download_logs_parallel_failed "foo" ["2024-01-01"] []
          (fun _ => NetResp.httpError "500 Server Error")
          (fun _ => WriteResp.ok)) =
      some ("failed_downloads_foo.txt",
        ["2024-01-01: Error downloading 2024-01-01: 500 Server Error"]) := by
  refine ⟨rfl, by decide, by decide, ?_⟩
  decide

/-- C8: `validate_channel` returns `True` exactly when the probe
completed with status 200 and the body does not contain the literal
substring `"No logs found"`; a raised request exception (`none`) makes
it return `False` rather than raise. -/
theorem c8_validate_channel (status : Nat) (body : String) :
    (validate_channel (some (status, body)) = true ↔
      status = 200 ∧ pyIn "No logs found" body = false) ∧
    validate_channel none = false := by
  refine ⟨?_, rfl⟩
  simp only [validate_channel, Bool.and_eq_true, Bool.not_eq_true', beq_iff_eq]
  constructor
  · rintro ⟨h1, h2⟩; exact ⟨h2, h1⟩
  · rintro ⟨h1, h2⟩; exact ⟨h2, h1⟩

/-- C9: the line `[2023-05-01 10:00:00] #foo bar: hello world` parses to
the record with timestamp 2023-05-01T10:00:00, channel `foo`, username
`bar`, message `hello world`; and every malformed line produces no row:
a line that does not match the leading bracketed-timestamp pattern, a
line whose bracketed timestamp is followed by text not matching the
`#channel user: message` pattern, and a line whose bracketed timestamp
fails `datetime.strptime` all yield `None`.  These three cases are
exhaustive: `parse_chat_line` builds a row only when all three match. -/
theorem c9_parse_chat_line_example (line : String) :
    parse_chat_line "[2023-05-01 10:00:00] #foo bar: hello world" =
      Except.ok (some { timestamp := ⟨2023, 5, 1, 10, 0, 0⟩, channel := "foo",
                        username := "bar", message := "hello world" }) ∧
    (tsMatch line = none → parse_chat_line line = Except.ok none) ∧
    (∀ tstr rest, tsMatch line = some (tstr, rest) → restMatch rest = none →
      parse_chat_line line = Except.ok none) ∧
    (∀ tstr rest, tsMatch line = some (tstr, rest) →
      strptime_ts (pyStrip tstr) = none →
      parse_chat_line line = Except.ok none) := by
  refine ⟨rfl, ?_, ?_, ?_⟩
  · intro h
    simp [parse_chat_line, h]
  · intro tstr rest htm hrm
    cases hts : strptime_ts (pyStrip tstr) with
    | none => simp [parse_chat_line, htm, strptime_ts_exc, hts, catchVA]
    | some dt => simp [parse_chat_line, htm, strptime_ts_exc, hts, hrm, catchVA]
  · intro tstr rest htm hts
    simp [parse_chat_line, htm, strptime_ts_exc, hts, catchVA]

/-- C9 (witness): a line with no leading bracketed timestamp yields no
row, and a line with a valid bracketed timestamp whose remainder does
not match the `#channel user: message` pattern also yields no row. -/
theorem c9_parse_chat_line_witness :
    tsMatch "just chatting" = none ∧
    parse_chat_line "just chatting" = Except.ok none ∧
    tsMatch "[2023-05-01 10:00:00] hello" =
      some ("2023-05-01 10:00:00", " hello") ∧
    restMatch " hello" = none ∧
    parse_chat_line "[2023-05-01 10:00:00] hello" = Except.ok none := by
  refine ⟨by decide, (c9_parse_chat_line_example "just chatting").2.1 (by decide),
    by decide, by decide, ?_⟩
  exact (c9_parse_chat_line_example "[2023-05-01 10:00:00] hello").2.2.1
    "2023-05-01 10:00:00" " hello" (by decide) (by decide)

/-- C10: `parse_chat_line` is total — for every input line it evaluates
to a normally returned value (a row or `None`), never to an escaping
exception; in particular a line whose bracketed timestamp matches the
pattern but fails `datetime.strptime` hits the
`except (ValueError, AttributeError)` handler and yields `None`. -/
theorem c10_parse_chat_line_total (line : String) :
    (∃ r, parse_chat_line line = Except.ok r) ∧
    (∀ tstr rest, tsMatch line = some (tstr, rest) →
      strptime_ts (pyStrip tstr) = none →
      parse_chat_line line = Except.ok none) := by
  constructor
  · cases htm : tsMatch line with
    | none => exact ⟨none, by simp [parse_chat_line, htm]⟩
    | some p =>
      obtain ⟨t, r⟩ := p
      cases hts : strptime_ts (pyStrip t) with
      | none =>
        exact ⟨none, by simp [parse_chat_line, htm, strptime_ts_exc, hts, catchVA]⟩
      | some dt =>
        cases hrm : restMatch r with
        | none =>
          exact ⟨none, by simp [parse_chat_line, htm, strptime_ts_exc, hts, hrm, catchVA]⟩
        | some g =>
          obtain ⟨ch, user, msg⟩ := g
          exact ⟨some { timestamp := dt, channel := ch, username := pyStrip user,
                        message := pyStrip msg },
            by simp [parse_chat_line, htm, strptime_ts_exc, hts, hrm, catchVA]⟩
  · intro t r htm hts
    simp [parse_chat_line, htm, strptime_ts_exc, hts, catchVA]

/-- C10 (witness): a bracketed but unparseable timestamp is caught and
yields no row, not an error. -/
theorem c10_parse_chat_line_total_witness :
    tsMatch "[not a date] #a b: c" = some ("not a date", " #a b: c") ∧
    strptime_ts (pyStrip "not a date") = none ∧
    parse_chat_line "[not a date] #a b: c" = Except.ok none := by
  refine ⟨by decide, by decide, ?_⟩
  exact (c10_parse_chat_line_total "[not a date] #a b: c").2 "not a date" " #a b: c"
    (by decide) (by decide)

